import Mathlib

/-!
Shallow embedding of the workload-scoring core of
`src/projects/workload_scoring/lib.py` (class `WorkloadScoring`), together
with theorems settling the frozen claims about it.

Modelling conventions:
* Calendar dates are modelled as integers (day ordinals).  The source
  compares `updated` values with ISO `y-m-d` strings, and ISO date strings
  compare lexicographically exactly as the dates they denote, so all date
  comparisons are order comparisons on the ordinals.
* Every float produced by the statistics block is the result of
  `round(·, 2)`, i.e. an exact multiple of 1/100.  Floats are therefore
  modelled exactly, as integer numbers of hundredths: the model value `k`
  stands for the float `k / 100`.  `round(x, 2)` becomes rounding to the
  nearest integer of `100 * x` (ties upward; Python's float `round` breaks
  exact ties to even, but no value reached in the theorems below sits on a
  tie, and exact rational arithmetic replaces binary-float arithmetic).
* `round(math.sqrt (a/b), 2)` is modelled by `roundSqrtDiv`, which computes
  the nearest integer to `100 * sqrt (a/100² / b)` exactly via integer
  square roots; `round(std / math.sqrt n, 2)` is `roundSqrtDiv (std^2) n`,
  the same real number rounded, because `std ≥ 0` implies
  `std / sqrt n = sqrt (std^2 / n)`.
* A `pandas.DataFrame` of the loaded table is a list of records; columns
  `id`, `created`, `updated` are record fields and the categorical
  dimension columns are a function from column names to values.
* Exceptions escaping the `workload_scoring` method are modelled by an
  error result; the per-partition loop short-circuits at the first raise,
  as the interpreter does.  `ZeroDivisionError` is raised by
  `int(num_of_all_days / num_of_interval_days)` when `interval = 0`, by
  `var = round(x_sum / (num_of_intervals - 1), 2)` when
  `num_of_intervals = 1` (`0 / 0`), and by
  `ste = round(std / math.sqrt(num_of_intervals), 2)` when
  `num_of_intervals = 0` (`-0.0 / 0.0`; the preceding lines compute
  `var = round(0 / -1, 2) = -0.0` and `std = math.sqrt(-0.0) = -0.0`
  without raising).  `KeyError` is raised by `self.raw_df[mask]` when the
  column list is empty: the mask stays the scalar `True` and pandas
  treats `raw_df[True]` as a column-label lookup.
-/

/-- A loaded table row: `id`, `created`, `updated` plus the categorical
dimension columns (a mapping from column name to value). -/
structure Record where
  id : ℤ
  created : ℤ
  updated : ℤ
  dim : String → ℤ

/-- The loaded BigQuery table (`self.raw_df`). -/
abbrev DataFrame := List Record

/-- One output row of `self.out_df`: the four statistics columns of the
source's `data` dict plus the dimension values of the partition. -/
structure ScoreRow where
  score_value : ℕ
  count_last_period : ℕ
  /-- `ste`, in hundredths (the float is this value divided by 100). -/
  count_sem_calc_period : ℤ
  /-- `avg_num_of_task_per_week`, in hundredths. -/
  count_mean_calc_period : ℤ
  dims : List ℤ
deriving DecidableEq

/-- Exceptions the scoring method can raise at runtime. -/
inductive PyErr where
  | zeroDivision
  | keyError
deriving DecidableEq

/-- Result of a call to `workload_scoring`: the early `'load data'` return,
an escaped exception, or the assembled output table. -/
inductive ScoringResult where
  | loadData
  | pyError (e : PyErr)
  | table (rows : List ScoreRow)
deriving DecidableEq

/-- `round(a / b, 0)` with ties upward, i.e. `⌊a/b + 1/2⌋ = ⌊(2a+b)/(2b)⌋`,
for `b > 0`.  This is how each `round(x, 2)` of the source acts on the
hundredths representation: `round((p/100²)/q, 2)` in hundredths is
`roundHalfUp p (100*q)`, and so on. -/
def roundHalfUp (a : ℤ) (b : ℕ) : ℤ := (2 * a + b) / (2 * b)

/-- Python `int(x)` (truncation toward zero) applied to a float held in
hundredths. -/
def pyIntOfHundredths (a : ℤ) : ℤ :=
  if 0 ≤ a then a / 100 else -((-a) / 100)

/-- Fuel-driven integer square root: `isqrtGo n fuel k` increments `k`
while `(k+1)^2 ≤ n`. -/
def isqrtGo (n : ℕ) : ℕ → ℕ → ℕ
  | 0, k => k
  | fuel + 1, k => if (k + 1) * (k + 1) ≤ n then isqrtGo n fuel (k + 1) else k

/-- `⌊√n⌋` for a natural number, by exhaustive search (kernel-reducible). -/
def isqrt (n : ℕ) : ℕ := isqrtGo n n 0

/-- The nearest integer (ties upward) to `√(a / b)` for `a ≥ 0`, `b > 0`:
`m = ⌊√(a/b)⌋ = ⌊√⌊a/b⌋⌋`, bumped to `m+1` when `√(a/b) ≥ m + 1/2`, that
is when `b*(2m+1)^2 ≤ 4*a`.  `round(math.sqrt v, 2)` for a float `v` held
in hundredths as `p` is `roundSqrtDiv (100 * p) 1` (since `100·√(p/100)
= √(100·p)`), and `round(w / math.sqrt n, 2)` for `w ≥ 0` held in
hundredths as `q` is `roundSqrtDiv (q^2) n` (since `100·(q/100)/√n =
√(q^2/n)`). -/
def roundSqrtDiv (a : ℤ) (b : ℕ) : ℤ :=
  let m : ℕ := isqrt (a.toNat / b)
  if (b : ℤ) * (2 * (m : ℤ) + 1) ^ 2 ≤ 4 * a then (m : ℤ) + 1 else (m : ℤ)

/-- Lines 201–213 of the source: mean, variance, standard deviation and
standard error of the baseline series `num_tasks_per_week`, each produced
by `round(·, 2)` and therefore held exactly in hundredths.  The variance
divisor is `num_of_intervals - 1` and the standard-error divisor is
`sqrt num_of_intervals`, exactly as written in the source.  Line by line:
`avg = round(mean(w), 2)` is `roundHalfUp (100 * Σw) |w|`;
`x = round((num - avg)^2, 2)` is `roundHalfUp (100*num - avg)^2 100`
(the square is held in 100²-ths);
`x_sum = round(Σx, 2)` is `roundHalfUp (Σx) 1` (Σx is already a float
with at most 2 decimals, so this rounding is the identity);
`var = round(x_sum / (n-1), 2)` is `roundHalfUp x_sum (n-1)`;
`std = round(sqrt var, 2)` is `roundSqrtDiv (100 * var) 1`;
`ste = round(std / sqrt n, 2)` is `roundSqrtDiv (std^2) n`. -/
def baselineStats (num_tasks_per_week : List ℕ) (num_of_intervals : ℕ) :
    ℤ × ℤ × ℤ × ℤ :=
  let avg := roundHalfUp (100 * (num_tasks_per_week.sum : ℤ)) num_tasks_per_week.length
  let x_values := num_tasks_per_week.map
    (fun num : ℕ => roundHalfUp ((100 * (num : ℤ) - avg) ^ 2) 100)
  let x_sum := roundHalfUp x_values.sum 1
  let var := roundHalfUp x_sum (num_of_intervals - 1)
  let std := roundSqrtDiv (100 * var) 1
  let ste := roundSqrtDiv (std ^ 2) num_of_intervals
  (avg, var, std, ste)

/-- The static method `__calc_workload_score` (lines 403–414). -/
def calc_workload_score (left_board right_board current_num_of_tasks : ℤ) : ℕ :=
  if left_board = 0 ∧ current_num_of_tasks = 0 ∧ right_board = 0 then 0
  else if 0 ≤ current_num_of_tasks ∧ current_num_of_tasks < left_board then 0
  else if left_board ≤ current_num_of_tasks ∧ current_num_of_tasks ≤ right_board then 1
  else 2

/-- `int(num_of_all_days / num_of_interval_days)` (line 185). -/
def num_of_intervals (num_of_all_days num_of_interval_days : ℕ) : ℕ :=
  num_of_all_days / num_of_interval_days

/-- Start date (`fst_cur_date`) of window `i`: the loop starts at
`end_date - num_of_all_days` and advances by `num_of_interval_days`. -/
def windowStart (end_date : ℤ) (num_of_all_days num_of_interval_days : ℕ) (i : ℕ) : ℤ :=
  end_date - (num_of_all_days : ℤ) + (i : ℤ) * (num_of_interval_days : ℤ)

/-- End date (`snd_cur_date`) of window `i`. -/
def windowEnd (end_date : ℤ) (num_of_all_days num_of_interval_days : ℕ) (i : ℕ) : ℤ :=
  end_date - (num_of_all_days : ℤ) + ((i : ℤ) + 1) * (num_of_interval_days : ℤ)

/-- The filter of line 189–190: both window boundary dates are inclusive. -/
def inWindow (end_date : ℤ) (num_of_all_days num_of_interval_days : ℕ) (i : ℕ)
    (updated : ℤ) : Bool :=
  decide (windowStart end_date num_of_all_days num_of_interval_days i ≤ updated) &&
  decide (updated ≤ windowEnd end_date num_of_all_days num_of_interval_days i)

/-- `df_interval`: the records of the partition slice falling in window `i`. -/
def windowSlice (df_slice : DataFrame) (end_date : ℤ)
    (num_of_all_days num_of_interval_days : ℕ) (i : ℕ) : DataFrame :=
  df_slice.filter (fun r => inWindow end_date num_of_all_days num_of_interval_days i r.updated)

/-- `len(np.unique(df_interval['id']))`: distinct ids in window `i`. -/
def countWindow (df_slice : DataFrame) (end_date : ℤ)
    (num_of_all_days num_of_interval_days : ℕ) (i : ℕ) : ℕ :=
  (((windowSlice df_slice end_date num_of_all_days num_of_interval_days i).map
    (fun r => r.id)).dedup).length

/-- `pandas.Series.unique`: distinct values in order of first appearance.
`seen` is the accumulator of values already emitted. -/
def uniqueAux {α : Type} [DecidableEq α] (seen : List α) : List α → List α
  | [] => []
  | a :: l => if a ∈ seen then uniqueAux seen l else a :: uniqueAux (a :: seen) l

/-- `raw_df[column].unique()` (line 169). -/
def uniqueVals {α : Type} [DecidableEq α] (l : List α) : List α := uniqueAux [] l

/-- One step of `itertools.product`: prepend each value of `l` to every
tuple of `ts`, keeping the order of `l` outermost. -/
def cartCons {α : Type} (l : List α) (ts : List (List α)) : List (List α) :=
  match l with
  | [] => []
  | v :: vs => ts.map (fun t => v :: t) ++ cartCons vs ts

/-- `itertools.product(*col_unique_vals)` (line 171): the first list varies
slowest, the last list varies fastest; the empty product is `[[]]`. -/
def cartProd {α : Type} : List (List α) → List (List α)
  | [] => [[]]
  | l :: ls => cartCons l (cartProd ls)

/-- `__get_dataframe_slice` (lines 395–401): conjunction of equality masks
over the grouping columns.  With an empty column list the mask stays the
Python scalar `True` and `self.raw_df[True]` raises `KeyError` (pandas
treats a scalar bool as a column-label lookup). -/
def get_dataframe_slice (df : DataFrame) (columns : List String) (values : List ℤ) :
    Except PyErr DataFrame :=
  match columns with
  | [] => .error .keyError
  | _ :: _ =>
    .ok (df.filter (fun r => (columns.zip values).all (fun p => r.dim p.1 == p.2)))

/-- Lines 176–223 of the per-partition loop body, applied to the
partition's slice: window counts, baseline statistics, confidence bounds
and score, or the exception the source raises there.  `num_of_intervals
= 0` raises `ZeroDivisionError` at the `ste` line (`-0.0 / math.sqrt 0`)
and `num_of_intervals = 1` raises it at the `var` line (`0 / 0`), both
before any value reaches the output dict. -/
def scorePartition (df_slice : DataFrame) (end_date : ℤ)
    (num_of_all_days num_of_interval_days : ℕ) (values : List ℤ) :
    Except PyErr ScoreRow :=
  if num_of_interval_days = 0 then .error .zeroDivision
  else
    let n := num_of_intervals num_of_all_days num_of_interval_days
    if n = 0 then .error .zeroDivision
    else if n = 1 then .error .zeroDivision
    else
      let num_tasks_per_week := (List.range (n - 1)).map
        (fun i => countWindow df_slice end_date num_of_all_days num_of_interval_days i)
      let num_tasks_per_current_week :=
        countWindow df_slice end_date num_of_all_days num_of_interval_days (n - 1)
      let s := baselineStats num_tasks_per_week n
      let left_border := pyIntOfHundredths (s.1 - s.2.2.2)
      let right_border := pyIntOfHundredths (s.1 + s.2.2.2)
      .ok ⟨calc_workload_score left_border right_border (num_tasks_per_current_week : ℤ),
        num_tasks_per_current_week, s.2.2.2, s.1, values⟩

/-- One iteration of the per-partition loop (lines 173–223): slice the
loaded table for the tuple `values` (line 174, which raises `KeyError`
when the column list is empty), then window and score the slice. -/
def slicedScorePartition (df : DataFrame) (columns_list : List String)
    (end_date : ℤ) (num_of_all_days num_of_interval_days : ℕ) (values : List ℤ) :
    Except PyErr ScoreRow :=
  match get_dataframe_slice df columns_list values with
  | .error e => .error e
  | .ok df_slice =>
    scorePartition df_slice end_date num_of_all_days num_of_interval_days values

/-- The sequential per-partition loop: stops at the first raised
exception, otherwise collects the output rows in enumeration order. -/
def runPartitions {α β ε : Type} (f : α → Except ε β) : List α → Except ε (List β)
  | [] => .ok []
  | v :: vs =>
    match f v with
    | .error e => .error e
    | .ok b =>
      match runPartitions f vs with
      | .error e => .error e
      | .ok bs => .ok (b :: bs)

/-- The public method `workload_scoring` (lines 84–228). -/
def workload_scoring (raw_df : Option DataFrame) (columns_list : List String)
    (num_of_all_days num_of_interval_days : ℕ) (end_date : ℤ) : ScoringResult :=
  match raw_df with
  | none => .loadData
  | some df =>
    match runPartitions
        (fun values => slicedScorePartition df columns_list end_date
          num_of_all_days num_of_interval_days values)
        (cartProd (columns_list.map (fun c => uniqueVals (df.map (fun r => r.dim c))))) with
    | .error e => .pyError e
    | .ok rows => .table rows

/-- The mutable state the calling object carries between method calls:
the loaded input table and the output table. -/
structure ScorerState where
  raw_df : Option DataFrame
  out_df : Option (List ScoreRow)

/-- One call of the method on the object state: the early return and a
raised exception leave `out_df` untouched; a completed run overwrites it
(line 228).  `raw_df` is never written by the method. -/
def workloadScoringStep (s : ScorerState) (columns_list : List String)
    (num_of_all_days num_of_interval_days : ℕ) (end_date : ℤ) :
    ScorerState × ScoringResult :=
  match workload_scoring s.raw_df columns_list num_of_all_days num_of_interval_days end_date with
  | .loadData => (s, .loadData)
  | .pyError e => (s, .pyError e)
  | .table rows => (⟨s.raw_df, some rows⟩, .table rows)

/-- A concrete 11-record table with one dimension column of constant value
5, whose window counts for `end_date = 28`, `num_of_all_days = 28`,
`num_of_interval_days = 7` are the baseline series `[2, 4, 3]` with
current count `2`. -/
def exampleDf : DataFrame :=
  [⟨1, 0, 1, fun _ => 5⟩, ⟨2, 0, 2, fun _ => 5⟩,
   ⟨3, 0, 8, fun _ => 5⟩, ⟨4, 0, 9, fun _ => 5⟩,
   ⟨5, 0, 10, fun _ => 5⟩, ⟨6, 0, 11, fun _ => 5⟩,
   ⟨7, 0, 15, fun _ => 5⟩, ⟨8, 0, 16, fun _ => 5⟩,
   ⟨9, 0, 17, fun _ => 5⟩, ⟨10, 0, 22, fun _ => 5⟩,
   ⟨11, 0, 23, fun _ => 5⟩]

/-- A one-record table used to instantiate the general theorems. -/
def exDf : DataFrame := [⟨1, 0, 1, fun _ => 5⟩]

/-- The single output row produced from `exDf` with two 7-day windows
ending at day 14. -/
def exRow : ScoreRow := ⟨0, 0, 0, 100, [5]⟩

/-- A record sitting exactly on the boundary shared by windows 0 and 1 of
the 28-day, 7-day-interval configuration ending at day 28. -/
def exRec : Record := ⟨1, 0, 7, fun _ => 5⟩

/-- The baseline statistics as the amended specification words them, for a
baseline series of length `n`: mean over the `n` baseline windows, variance
with divisor `n` (the full window count minus one), standard deviation
`sqrt variance`, and standard error `std / sqrt (n + 1)` where `n + 1` is
the total number of windows including the current one; every step rounded
to 2 decimals (held in hundredths). -/
def specBaselineStats (baseline : List ℕ) : ℤ × ℤ × ℤ × ℤ :=
  let n := baseline.length
  let mean := roundHalfUp (100 * (baseline.sum : ℤ)) n
  let devs := baseline.map (fun num : ℕ => roundHalfUp ((100 * (num : ℤ) - mean) ^ 2) 100)
  let variance := roundHalfUp (roundHalfUp devs.sum 1) n
  let std := roundSqrtDiv (100 * variance) 1
  let ste := roundSqrtDiv (std ^ 2) (n + 1)
  (mean, variance, std, ste)

/- ------------------------------------------------------------------ -/
/- Helper lemmas.                                                      -/
/- ------------------------------------------------------------------ -/

theorem uniqueAux_mem {α : Type} [DecidableEq α] (l : List α) :
    ∀ (seen : List α) (b : α), b ∈ uniqueAux seen l ↔ b ∈ l ∧ b ∉ seen := by
  induction l with
  | nil => intro seen b; simp [uniqueAux]
  | cons a l ih =>
    intro seen b
    by_cases ha : a ∈ seen
    · rw [uniqueAux, if_pos ha, ih]
      constructor
      · rintro ⟨hb, hbs⟩; exact ⟨List.mem_cons_of_mem _ hb, hbs⟩
      · rintro ⟨hb, hbs⟩
        rcases List.mem_cons.1 hb with rfl | hb
        · exact absurd ha hbs
        · exact ⟨hb, hbs⟩
    · rw [uniqueAux, if_neg ha]
      constructor
      · intro hb
        rcases List.mem_cons.1 hb with rfl | hb
        · exact ⟨List.mem_cons_self _ _, ha⟩
        · rcases (ih _ _).1 hb with ⟨h1, h2⟩
          exact ⟨List.mem_cons_of_mem _ h1,
            fun hs => h2 (List.mem_cons_of_mem _ hs)⟩
      · rintro ⟨hb, hbs⟩
        rcases List.mem_cons.1 hb with rfl | hb
        · exact List.mem_cons_self _ _
        · by_cases hba : b = a
          · subst hba; exact List.mem_cons_self _ _
          · exact List.mem_cons_of_mem _ ((ih _ _).2
              ⟨hb, by simp [List.mem_cons, hba, hbs]⟩)

theorem uniqueVals_mem {α : Type} [DecidableEq α] (l : List α) (b : α) :
    b ∈ uniqueVals l ↔ b ∈ l := by
  rw [uniqueVals, uniqueAux_mem]; simp

theorem uniqueAux_pairwise {α : Type} [DecidableEq α] (l : List α) :
    ∀ seen : List α,
      (uniqueAux seen l).Pairwise (fun x y => l.indexOf x < l.indexOf y) := by
  induction l with
  | nil => intro seen; simp [uniqueAux]
  | cons a l ih =>
    intro seen
    by_cases ha : a ∈ seen
    · rw [uniqueAux, if_pos ha]
      refine ((ih seen).imp_of_mem ?_)
      intro x y hx hy hlt
      have hxa : x ≠ a := by
        intro h; subst h
        exact ((uniqueAux_mem l seen x).1 hx).2 ha
      have hya : y ≠ a := by
        intro h; subst h
        exact ((uniqueAux_mem l seen y).1 hy).2 ha
      rw [List.indexOf_cons_ne l (Ne.symm hxa), List.indexOf_cons_ne l (Ne.symm hya)]
      exact Nat.succ_lt_succ hlt
    · rw [uniqueAux, if_neg ha]
      refine List.Pairwise.cons ?_ ?_
      · intro y hy
        have hya : y ≠ a := fun h => ((uniqueAux_mem l (a :: seen) y).1 hy).2
          (by rw [h]; exact List.mem_cons_self _ _)
        rw [List.indexOf_cons_self, List.indexOf_cons_ne l (Ne.symm hya)]
        exact Nat.succ_pos _
      · refine ((ih (a :: seen)).imp_of_mem ?_)
        intro x y hx hy hlt
        have hxa : x ≠ a := fun h => ((uniqueAux_mem l (a :: seen) x).1 hx).2
          (by rw [h]; exact List.mem_cons_self _ _)
        have hya : y ≠ a := fun h => ((uniqueAux_mem l (a :: seen) y).1 hy).2
          (by rw [h]; exact List.mem_cons_self _ _)
        rw [List.indexOf_cons_ne l (Ne.symm hxa), List.indexOf_cons_ne l (Ne.symm hya)]
        exact Nat.succ_lt_succ hlt

theorem uniqueVals_pairwise {α : Type} [DecidableEq α] (l : List α) :
    (uniqueVals l).Pairwise (fun x y => l.indexOf x < l.indexOf y) :=
  uniqueAux_pairwise l []

theorem uniqueVals_nodup {α : Type} [DecidableEq α] (l : List α) :
    (uniqueVals l).Nodup :=
  (uniqueVals_pairwise l).imp (fun h => by
    intro he; subst he; exact absurd h (lt_irrefl _))

theorem length_cartCons {α : Type} (l : List α) (ts : List (List α)) :
    (cartCons l ts).length = l.length * ts.length := by
  induction l with
  | nil => simp [cartCons]
  | cons v vs ih => simp [cartCons, ih, Nat.succ_mul, Nat.add_comm]

theorem length_cartProd {α : Type} (ls : List (List α)) :
    (cartProd ls).length = (ls.map List.length).prod := by
  induction ls with
  | nil => simp [cartProd]
  | cons l ls ih => simp [cartProd, length_cartCons, ih]

theorem mem_cartCons {α : Type} (l : List α) (ts : List (List α)) (t : List α) :
    t ∈ cartCons l ts ↔ ∃ v ∈ l, ∃ s ∈ ts, t = v :: s := by
  induction l with
  | nil => simp [cartCons]
  | cons v vs ih =>
    simp only [cartCons, List.mem_append, List.mem_map, ih, List.mem_cons]
    constructor
    · rintro (⟨s, hs, rfl⟩ | ⟨w, hw, s, hs, rfl⟩)
      · exact ⟨v, Or.inl rfl, s, hs, rfl⟩
      · exact ⟨w, Or.inr hw, s, hs, rfl⟩
    · rintro ⟨w, (rfl | hw), s, hs, rfl⟩
      · exact Or.inl ⟨s, hs, rfl⟩
      · exact Or.inr ⟨w, hw, s, hs, rfl⟩

theorem mem_cartProd {α : Type} (ls : List (List α)) (t : List α) :
    t ∈ cartProd ls ↔ List.Forall₂ (fun v l => v ∈ l) t ls := by
  induction ls generalizing t with
  | nil => simp [cartProd, List.forall₂_nil_right_iff]
  | cons l ls ih =>
    rw [cartProd, mem_cartCons, List.forall₂_cons_right_iff]
    constructor
    · rintro ⟨v, hv, s, hs, rfl⟩
      exact ⟨v, s, hv, (ih s).1 hs, rfl⟩
    · rintro ⟨v, s, hv, hs, rfl⟩
      exact ⟨v, hv, s, (ih s).2 hs, rfl⟩

theorem nodup_cartCons {α : Type} {l : List α} {ts : List (List α)}
    (hl : l.Nodup) (hts : ts.Nodup) : (cartCons l ts).Nodup := by
  induction l with
  | nil => simp [cartCons]
  | cons v vs ih =>
    rw [cartCons, List.nodup_append]
    rcases List.nodup_cons.1 hl with ⟨hv, hvs⟩
    refine ⟨hts.map (fun s1 s2 h => List.tail_eq_of_cons_eq h), ih hvs, ?_⟩
    intro t ht1 ht2
    rcases List.mem_map.1 ht1 with ⟨s, _, rfl⟩
    rcases (mem_cartCons vs ts _).1 ht2 with ⟨w, hw, s2, _, heq⟩
    exact hv (List.head_eq_of_cons_eq heq ▸ hw)

theorem nodup_cartProd {α : Type} (ls : List (List α))
    (h : ∀ l ∈ ls, l.Nodup) : (cartProd ls).Nodup := by
  induction ls with
  | nil => simp [cartProd]
  | cons l ls ih =>
    exact nodup_cartCons (h l (List.mem_cons_self _ _))
      (ih (fun l2 hl2 => h l2 (List.mem_cons_of_mem _ hl2)))

theorem getElem?_cartCons {α : Type} (l : List α) (ts : List (List α)) :
    ∀ (i j : ℕ), j < ts.length →
      (cartCons l ts)[i * ts.length + j]? =
        l[i]?.bind (fun v => ts[j]?.map (fun t => v :: t)) := by
  induction l with
  | nil => intro i j hj; simp [cartCons]
  | cons v vs ih =>
    intro i j hj
    cases i with
    | zero =>
      rw [cartCons, Nat.zero_mul, Nat.zero_add,
        List.getElem?_append_left (by simpa using hj)]
      simp
    | succ i =>
      have hidx : (i + 1) * ts.length + j =
          (ts.map (fun t => v :: t)).length + (i * ts.length + j) := by
        simp [List.length_map, Nat.succ_mul]; ring
      rw [cartCons, hidx, List.getElem?_append_right (Nat.le_add_right _ _),
        Nat.add_sub_cancel_left]
      simpa using ih i j hj

theorem runPartitions_ok_map {α β ε : Type} {f : α → Except ε β} {g : β → α}
    (hg : ∀ a b, f a = Except.ok b → g b = a) :
    ∀ {l : List α} {ys : List β}, runPartitions f l = Except.ok ys → ys.map g = l := by
  intro l
  induction l with
  | nil =>
    intro ys h
    rw [runPartitions] at h
    cases h
    rfl
  | cons a l ih =>
    intro ys h
    rw [runPartitions] at h
    cases hfa : f a with
    | error e => rw [hfa] at h; cases h
    | ok b =>
      rw [hfa] at h
      cases hrec : runPartitions f l with
      | error e => rw [hrec] at h; cases h
      | ok bs =>
        rw [hrec] at h
        cases h
        simp [hg a b hfa, ih hrec]

theorem scorePartition_dims {df_slice : DataFrame} {end_date : ℤ}
    {num_of_all_days num_of_interval_days : ℕ} {values : List ℤ} {row : ScoreRow}
    (h : scorePartition df_slice end_date num_of_all_days num_of_interval_days values =
      Except.ok row) : row.dims = values := by
  rw [scorePartition] at h
  split at h
  · cases h
  · dsimp only at h
    split at h
    · cases h
    · split at h
      · cases h
      · cases h
        rfl

/- ------------------------------------------------------------------ -/
/- Claim theorems.                                                     -/
/- ------------------------------------------------------------------ -/

/-- C7: a call to the scoring operation before any input table has been
loaded returns the recoverable `'load data'` signal (not an exception) and
leaves the output table untouched. -/
theorem c7_no_input_signal (columns_list : List String)
    (num_of_all_days num_of_interval_days : ℕ) (end_date : ℤ)
    (out_df : Option (List ScoreRow)) :
    workload_scoring none columns_list num_of_all_days num_of_interval_days end_date =
      ScoringResult.loadData
    ∧ workloadScoringStep ⟨none, out_df⟩ columns_list num_of_all_days
        num_of_interval_days end_date = (⟨none, out_df⟩, ScoringResult.loadData) :=
  ⟨rfl, rfl⟩

/-- C9: calling the scoring operation twice with the identical loaded
input table and configuration yields identical results and output tables;
the method never rewrites `raw_df`, so the only state carried between the
calls is the overwritten `out_df`. -/
theorem c9_idempotent (s : ScorerState) (columns_list : List String)
    (num_of_all_days num_of_interval_days : ℕ) (end_date : ℤ) :
    (workloadScoringStep (workloadScoringStep s columns_list num_of_all_days
        num_of_interval_days end_date).1 columns_list num_of_all_days
        num_of_interval_days end_date).1.out_df =
      (workloadScoringStep s columns_list num_of_all_days num_of_interval_days
        end_date).1.out_df
    ∧ (workloadScoringStep (workloadScoringStep s columns_list num_of_all_days
        num_of_interval_days end_date).1 columns_list num_of_all_days
        num_of_interval_days end_date).2 =
      (workloadScoringStep s columns_list num_of_all_days num_of_interval_days
        end_date).2
    ∧ (workloadScoringStep s columns_list num_of_all_days num_of_interval_days
        end_date).1.raw_df = s.raw_df := by
  cases h : workload_scoring s.raw_df columns_list num_of_all_days
      num_of_interval_days end_date with
  | loadData => simp [workloadScoringStep, h]
  | pyError e => simp [workloadScoringStep, h]
  | table rows => simp [workloadScoringStep, h]

/-- C3: the score classifier evaluates its four rules in the source's
priority order for any integer bounds and non-negative current count, and
the returned score is always one of 0, 1, 2. -/
theorem c3_score_decision_table (left_board right_board current : ℤ)
    (hc : 0 ≤ current) :
    (calc_workload_score left_board right_board current = 0 ∨
      calc_workload_score left_board right_board current = 1 ∨
      calc_workload_score left_board right_board current = 2)
    ∧ (left_board = 0 ∧ current = 0 ∧ right_board = 0 →
        calc_workload_score left_board right_board current = 0)
    ∧ (¬(left_board = 0 ∧ current = 0 ∧ right_board = 0) →
        current < left_board →
        calc_workload_score left_board right_board current = 0)
    ∧ (¬(left_board = 0 ∧ current = 0 ∧ right_board = 0) →
        ¬current < left_board → left_board ≤ current → current ≤ right_board →
        calc_workload_score left_board right_board current = 1)
    ∧ (¬(left_board = 0 ∧ current = 0 ∧ right_board = 0) →
        ¬current < left_board →
        ¬(left_board ≤ current ∧ current ≤ right_board) →
        calc_workload_score left_board right_board current = 2) := by
  unfold calc_workload_score
  split_ifs with h1 h2 h3 <;>
    exact ⟨by omega, fun _ => by omega, fun _ _ => by omega,
      fun _ _ _ _ => by omega, fun _ _ _ => by omega⟩

/-- C3 witness: the decision table instantiated at bounds 2, 3 and
current count 2. -/
theorem c3_score_decision_table_witness :
    (0 ≤ (2 : ℤ)) ∧
    ((calc_workload_score 2 3 2 = 0 ∨ calc_workload_score 2 3 2 = 1 ∨
        calc_workload_score 2 3 2 = 2)
      ∧ ((2 : ℤ) = 0 ∧ (2 : ℤ) = 0 ∧ (3 : ℤ) = 0 → calc_workload_score 2 3 2 = 0)
      ∧ (¬((2 : ℤ) = 0 ∧ (2 : ℤ) = 0 ∧ (3 : ℤ) = 0) → (2 : ℤ) < 2 →
          calc_workload_score 2 3 2 = 0)
      ∧ (¬((2 : ℤ) = 0 ∧ (2 : ℤ) = 0 ∧ (3 : ℤ) = 0) → ¬(2 : ℤ) < 2 →
          (2 : ℤ) ≤ 2 → (2 : ℤ) ≤ 3 → calc_workload_score 2 3 2 = 1)
      ∧ (¬((2 : ℤ) = 0 ∧ (2 : ℤ) = 0 ∧ (3 : ℤ) = 0) → ¬(2 : ℤ) < 2 →
          ¬((2 : ℤ) ≤ 2 ∧ (2 : ℤ) ≤ 3) → calc_workload_score 2 3 2 = 2)) :=
  ⟨by decide, c3_score_decision_table 2 3 2 (by decide)⟩

/-- C2 (claim is the spec's required validation; the code has none):
with fewer than 2 windows the method raises `ZeroDivisionError` while
already processing the first partition (at the `var` line for
`num_of_intervals = 1`, at the `ste` line for `num_of_intervals = 0`),
and with zero dimension names it raises `KeyError` at the first
partition's slice lookup `raw_df[True]` — in no case is a
ConfigurationError raised before partition processing. -/
theorem c2_no_configuration_validation :
    workload_scoring (some exampleDf) ["c"] 7 7 28 = ScoringResult.pyError PyErr.zeroDivision
    ∧ workload_scoring (some exampleDf) ["c"] 3 7 28 = ScoringResult.pyError PyErr.zeroDivision
    ∧ workload_scoring (some exampleDf) [] 28 7 28 = ScoringResult.pyError PyErr.keyError := by
  exact ⟨by decide, by decide, by decide⟩

/-- C1 counterexample: on the baseline series [2,4,3] (4 windows) the code
produces variance 0.67 (not 1.0) and standard error 0.41 (not 0.58),
because the variance divisor is `num_of_intervals - 1 = 3` (the baseline
length, not baseline length minus 1) and the standard-error divisor is
`sqrt num_of_intervals = sqrt 4` (not `sqrt 3`); the full run on a table
realising that series confirms the output standard error 0.41. -/
theorem c1_counterexample :
    baselineStats [2, 4, 3] 4 = (300, 67, 82, 41)
    ∧ ¬(baselineStats [2, 4, 3] 4).2.1 = 100
    ∧ ¬(baselineStats [2, 4, 3] 4).2.2.2 = 58
    ∧ workload_scoring (some exampleDf) ["c"] 28 7 28 =
        ScoringResult.table [⟨1, 2, 41, 300, [5]⟩] := by
  exact ⟨by decide, by decide, by decide, by decide⟩

/-- C1 amended: for a baseline series of length n ≥ 2 the code's
statistics equal the amended formulas — mean over the n baseline counts,
variance with divisor n (not n−1), std = sqrt variance, standard error =
std / sqrt (n+1) (n+1 = total window count), each rounded to 2 decimals at
each step; in particular for baseline [2,4,3] and current count 2 the
result is mean 3.00, variance 0.67, std 0.82, standard error 0.41, bounds
[2,3] and score 1. -/
theorem c1_amended_baseline_stats (baseline : List ℕ) (h : 2 ≤ baseline.length) :
    baselineStats baseline (baseline.length + 1) = specBaselineStats baseline
    ∧ baselineStats [2, 4, 3] 4 = (300, 67, 82, 41)
    ∧ pyIntOfHundredths (300 - 41) = 2 ∧ pyIntOfHundredths (300 + 41) = 3
    ∧ calc_workload_score 2 3 2 = 1 :=
  ⟨rfl, by decide, by decide, by decide, by decide⟩

/-- C1 witness: the amended statement instantiated at baseline [2,4,3]. -/
theorem c1_amended_baseline_stats_witness :
    (2 ≤ ([2, 4, 3] : List ℕ).length) ∧
    (baselineStats [2, 4, 3] (([2, 4, 3] : List ℕ).length + 1) =
        specBaselineStats [2, 4, 3]
      ∧ baselineStats [2, 4, 3] 4 = (300, 67, 82, 41)
      ∧ pyIntOfHundredths (300 - 41) = 2 ∧ pyIntOfHundredths (300 + 41) = 3
      ∧ calc_workload_score 2 3 2 = 1) :=
  ⟨by decide, c1_amended_baseline_stats [2, 4, 3] (by decide)⟩

/-- C6 counterexample: with `num_of_all_days = 10`, `num_of_interval_days
= 7` and `end_date = 100` there is one window, it starts at
`end_date - 10 = 90` and ends at `97 ≠ end_date`, and the date `end_date`
itself lies in no window — the remainder days are cut from the latest
coverage, not the earliest, and the windows do not end at `end_date`. -/
theorem c6_counterexample :
    num_of_intervals 10 7 = 1
    ∧ windowStart 100 10 7 0 = 90
    ∧ windowEnd 100 10 7 0 = 97
    ∧ ¬windowEnd 100 10 7 (num_of_intervals 10 7 - 1) = 100
    ∧ inWindow 100 10 7 0 100 = false := by
  exact ⟨by decide, by decide, by decide, by decide, by decide⟩

/-- C6 amended: the window count is `⌊total/interval⌋` and the earliest
window starts at `end_date − total_days`, but when `total_days` is not
divisible by `interval_days` the remainder days are silently excluded from
the latest coverage: the last window ends at
`end_date − (total_days % interval_days)`, which is `end_date` exactly
when the division is even. -/
theorem c6_amended_window_layout (end_date : ℤ) (total interval : ℕ)
    (hiv : 0 < interval) (hn : 1 ≤ total / interval) :
    num_of_intervals total interval = total / interval
    ∧ windowStart end_date total interval 0 = end_date - total
    ∧ windowEnd end_date total interval (total / interval - 1) =
        end_date - ((total % interval : ℕ) : ℤ)
    ∧ (total % interval = 0 →
        windowEnd end_date total interval (total / interval - 1) = end_date) := by
  have hdm : (interval : ℤ) * ((total / interval : ℕ) : ℤ) +
      ((total % interval : ℕ) : ℤ) = (total : ℤ) := by
    exact_mod_cast Nat.div_add_mod total interval
  have hc : (((total / interval - 1 : ℕ)) : ℤ) = ((total / interval : ℕ) : ℤ) - 1 := by
    exact_mod_cast Int.ofNat_sub hn
  have hend : windowEnd end_date total interval (total / interval - 1) =
      end_date - ((total % interval : ℕ) : ℤ) := by
    rw [windowEnd, hc]
    linear_combination hdm
  refine ⟨rfl, by simp [windowStart], hend, fun h0 => by rw [hend, h0]; simp⟩

/-- C6 witness: the amended layout instantiated at `end_date = 100`,
`total = 10`, `interval = 7`. -/
theorem c6_amended_window_layout_witness :
    (0 < 7) ∧ (1 ≤ 10 / 7) ∧
    (num_of_intervals 10 7 = 10 / 7
      ∧ windowStart 100 10 7 0 = 100 - (10 : ℕ)
      ∧ windowEnd 100 10 7 (10 / 7 - 1) = 100 - ((10 % 7 : ℕ) : ℤ)
      ∧ (10 % 7 = 0 → windowEnd 100 10 7 (10 / 7 - 1) = 100)) :=
  ⟨by decide, by decide, c6_amended_window_layout 100 10 7 (by decide) (by decide)⟩

theorem slicedScorePartition_dims {df : DataFrame} {columns_list : List String}
    {end_date : ℤ} {num_of_all_days num_of_interval_days : ℕ} {values : List ℤ}
    {row : ScoreRow}
    (h : slicedScorePartition df columns_list end_date num_of_all_days
      num_of_interval_days values = Except.ok row) : row.dims = values := by
  rw [slicedScorePartition] at h
  cases hs : get_dataframe_slice df columns_list values with
  | error e => rw [hs] at h; cases h
  | ok df_slice => rw [hs] at h; exact scorePartition_dims h

theorem workload_scoring_table_dims {df : DataFrame} {columns_list : List String}
    {num_of_all_days num_of_interval_days : ℕ} {end_date : ℤ} {rows : List ScoreRow}
    (h : workload_scoring (some df) columns_list num_of_all_days num_of_interval_days
      end_date = ScoringResult.table rows) :
    rows.map ScoreRow.dims =
      cartProd (columns_list.map (fun c => uniqueVals (df.map (fun r => r.dim c)))) := by
  rw [workload_scoring] at h
  cases hrun : runPartitions
      (fun values => slicedScorePartition df columns_list end_date
        num_of_all_days num_of_interval_days values)
      (cartProd (columns_list.map (fun c => uniqueVals (df.map (fun r => r.dim c))))) with
  | error err => rw [hrun] at h; cases h
  | ok rows2 =>
    rw [hrun] at h
    injection h with h
    subst h
    exact runPartitions_ok_map (fun a b hb => slicedScorePartition_dims hb) hrun

/-- C4: for a loaded table and non-empty dimension list, a completed run
has exactly one output row per tuple of the Cartesian product of the
per-dimension distinct value sets: the row count is the product of the
distinct-value counts, the key tuples are duplicate-free, and a tuple
appears iff it is componentwise drawn from the distinct value sets
(including zero-record combinations). -/
theorem c4_output_is_cartesian_product (df : DataFrame) (columns_list : List String)
    (num_of_all_days num_of_interval_days : ℕ) (end_date : ℤ) (rows : List ScoreRow)
    (hcols : columns_list ≠ [])
    (h : workload_scoring (some df) columns_list num_of_all_days num_of_interval_days
      end_date = ScoringResult.table rows) :
    rows.length = (columns_list.map
        (fun c => (uniqueVals (df.map (fun r => r.dim c))).length)).prod
    ∧ (rows.map ScoreRow.dims).Nodup
    ∧ ∀ tup : List ℤ, tup ∈ rows.map ScoreRow.dims ↔
        List.Forall₂ (fun v l => v ∈ l) tup
          (columns_list.map (fun c => uniqueVals (df.map (fun r => r.dim c)))) := by
  have hdims := workload_scoring_table_dims h
  refine ⟨?_, ?_, ?_⟩
  · have hlen := congrArg List.length hdims
    rw [List.length_map, length_cartProd, List.map_map] at hlen
    exact hlen
  · rw [hdims]
    refine nodup_cartProd _ (fun l hl => ?_)
    rcases List.mem_map.1 hl with ⟨c, hc, rfl⟩
    exact uniqueVals_nodup _
  · intro tup
    rw [hdims]
    exact mem_cartProd _ tup

/-- C4 witness: the Cartesian-product row property instantiated on the
one-record table `exDf` with the single dimension column "c". -/
theorem c4_output_is_cartesian_product_witness :
    ((["c"] : List String) ≠ []) ∧
    (([exRow] : List ScoreRow).length =
        ((["c"] : List String).map
          (fun c => (uniqueVals (exDf.map (fun r => r.dim c))).length)).prod
      ∧ (([exRow] : List ScoreRow).map ScoreRow.dims).Nodup
      ∧ ∀ tup : List ℤ, tup ∈ ([exRow] : List ScoreRow).map ScoreRow.dims ↔
          List.Forall₂ (fun v l => v ∈ l) tup
            ((["c"] : List String).map (fun c => uniqueVals (exDf.map (fun r => r.dim c))))) :=
  ⟨by decide, c4_output_is_cartesian_product exDf ["c"] 14 7 14 [exRow]
    (by decide) (by decide)⟩

/-- C10: the output rows appear in `itertools.product` enumeration order —
the key-tuple list is exactly `cartProd` of the per-column distinct-value
lists, where the tuple at flattened index `i * W + j` pairs the `i`-th
value of the first column with the `j`-th tuple of the remaining columns
(first dimension slowest, last fastest), and each column's distinct values
are listed in strictly increasing order of first appearance. -/
theorem c10_output_row_order (df : DataFrame) (columns_list : List String)
    (num_of_all_days num_of_interval_days : ℕ) (end_date : ℤ) (rows : List ScoreRow)
    (h : workload_scoring (some df) columns_list num_of_all_days num_of_interval_days
      end_date = ScoringResult.table rows) :
    rows.map ScoreRow.dims =
      cartProd (columns_list.map (fun c => uniqueVals (df.map (fun r => r.dim c))))
    ∧ (∀ (l : List ℤ) (ls : List (List ℤ)) (i j : ℕ), j < (cartProd ls).length →
        (cartProd (l :: ls))[i * (cartProd ls).length + j]? =
          l[i]?.bind (fun v => (cartProd ls)[j]?.map (fun t => v :: t)))
    ∧ ∀ col : List ℤ,
        (uniqueVals col).Pairwise (fun a b => col.indexOf a < col.indexOf b) := by
  refine ⟨workload_scoring_table_dims h, ?_, fun col => uniqueVals_pairwise col⟩
  intro l ls i j hj
  exact getElem?_cartCons l (cartProd ls) i j hj

/-- C10 witness: the ordering property instantiated on `exDf`. -/
theorem c10_output_row_order_witness :
    (([exRow] : List ScoreRow).map ScoreRow.dims =
        cartProd ((["c"] : List String).map
          (fun c => uniqueVals (exDf.map (fun r => r.dim c)))))
    ∧ (∀ (l : List ℤ) (ls : List (List ℤ)) (i j : ℕ), j < (cartProd ls).length →
        (cartProd (l :: ls))[i * (cartProd ls).length + j]? =
          l[i]?.bind (fun v => (cartProd ls)[j]?.map (fun t => v :: t)))
    ∧ ∀ col : List ℤ,
        (uniqueVals col).Pairwise (fun a b => col.indexOf a < col.indexOf b) :=
  c10_output_row_order exDf ["c"] 14 7 14 [exRow] (by decide)

/-- C5: both window boundary dates are inclusive — a record whose
`updated` equals a window's end date passes that window's filter and its
id enters the distinct-id count, and since that end date is exactly the
next window's start date, the same record is also counted in the adjacent
window. -/
theorem c5_inclusive_window_bounds (df_slice : DataFrame) (end_date : ℤ)
    (num_of_all_days num_of_interval_days : ℕ) (i : ℕ) (r : Record)
    (hr : r ∈ df_slice)
    (hupd : r.updated = windowEnd end_date num_of_all_days num_of_interval_days i) :
    windowEnd end_date num_of_all_days num_of_interval_days i =
      windowStart end_date num_of_all_days num_of_interval_days (i + 1)
    ∧ r.id ∈ ((windowSlice df_slice end_date num_of_all_days num_of_interval_days
        i).map (fun r => r.id)).dedup
    ∧ r.id ∈ ((windowSlice df_slice end_date num_of_all_days num_of_interval_days
        (i + 1)).map (fun r => r.id)).dedup := by
  have hiv : (0 : ℤ) ≤ (num_of_interval_days : ℤ) := Int.natCast_nonneg _
  have hb : windowEnd end_date num_of_all_days num_of_interval_days i =
      windowStart end_date num_of_all_days num_of_interval_days (i + 1) := by
    rw [windowEnd, windowStart]
    push_cast
    ring
  refine ⟨hb, ?_, ?_⟩
  · rw [List.mem_dedup]
    refine List.mem_map.2 ⟨r, List.mem_filter.2 ⟨hr, ?_⟩, rfl⟩
    rw [inWindow, hupd]
    simp only [Bool.and_eq_true, decide_eq_true_eq]
    refine ⟨?_, le_refl _⟩
    rw [windowStart, windowEnd]
    linarith
  · rw [List.mem_dedup]
    refine List.mem_map.2 ⟨r, List.mem_filter.2 ⟨hr, ?_⟩, rfl⟩
    rw [inWindow, hupd, hb]
    simp only [Bool.and_eq_true, decide_eq_true_eq]
    refine ⟨le_refl _, ?_⟩
    rw [windowStart, windowEnd]
    linarith

/-- C5 witness: the boundary record `exRec` (updated on day 7) is counted
in both 7-day windows 0 and 1 of the 28-day period ending at day 28. -/
theorem c5_inclusive_window_bounds_witness :
    (exRec ∈ ([exRec] : DataFrame)) ∧ (exRec.updated = windowEnd 28 28 7 0) ∧
    (windowEnd 28 28 7 0 = windowStart 28 28 7 (0 + 1)
      ∧ exRec.id ∈ ((windowSlice [exRec] 28 28 7 0).map (fun r => r.id)).dedup
      ∧ exRec.id ∈ ((windowSlice [exRec] 28 28 7 (0 + 1)).map (fun r => r.id)).dedup) :=
  ⟨List.mem_singleton.2 rfl, by decide,
    c5_inclusive_window_bounds [exRec] 28 28 7 0 exRec (List.mem_singleton.2 rfl)
      (by decide)⟩

theorem countWindow_nil (end_date : ℤ) (num_of_all_days num_of_interval_days : ℕ)
    (i : ℕ) : countWindow [] end_date num_of_all_days num_of_interval_days i = 0 :=
  rfl

theorem roundHalfUp_zero {b : ℕ} (hb : 0 < b) : roundHalfUp 0 b = 0 := by
  rw [roundHalfUp]
  have h1 : (2 * (0 : ℤ) + b) = (b : ℤ) := by ring
  rw [h1]
  refine Int.ediv_eq_zero_of_lt (Int.natCast_nonneg _) ?_
  have h2 : (0 : ℤ) < (b : ℤ) := by exact_mod_cast hb
  linarith

theorem roundSqrtDiv_zero {b : ℕ} (hb : 0 < b) : roundSqrtDiv 0 b = 0 := by
  rw [roundSqrtDiv]
  have h0 : isqrt (Int.toNat 0 / b) = 0 := by
    rw [Int.toNat_zero, Nat.zero_div]
    rfl
  rw [h0]
  rw [if_neg ?_]
  · norm_num
  · have h2 : (0 : ℤ) < (b : ℤ) := by exact_mod_cast hb
    push_cast
    nlinarith

theorem baselineStats_replicate_zero (k n : ℕ) (hk : 0 < k) (hn : 2 ≤ n) :
    baselineStats (List.replicate k 0) n = (0, 0, 0, 0) := by
  have h100 : (0 : ℕ) < 100 := by norm_num
  have hn1 : 0 < n - 1 := by omega
  have hnpos : 0 < n := by omega
  rw [baselineStats]
  simp only [List.sum_replicate, smul_zero, Nat.cast_zero, mul_zero,
    List.length_replicate, List.map_replicate, roundHalfUp_zero hk]
  simp only [sub_zero, ne_eq, OfNat.ofNat_ne_zero, not_false_eq_true,
    zero_pow, roundHalfUp_zero h100, smul_zero,
    roundHalfUp_zero Nat.one_pos, roundHalfUp_zero hn1, mul_zero,
    roundSqrtDiv_zero Nat.one_pos, roundSqrtDiv_zero hnpos]

/-- C8: a partition with zero matching records in every window (with at
least 2 windows) does not raise: the baseline statistics over the all-zero
series are mean 0, variance 0, std 0, standard error 0, both confidence
bounds are 0, rule 1 of the classifier fires, and the partition's output
row carries score 0 and current count 0. -/
theorem c8_all_zero_partition (end_date : ℤ) (total interval : ℕ) (values : List ℤ)
    (h2 : 2 ≤ num_of_intervals total interval) :
    baselineStats (List.replicate (num_of_intervals total interval - 1) 0)
        (num_of_intervals total interval) = (0, 0, 0, 0)
    ∧ scorePartition [] end_date total interval values = Except.ok ⟨0, 0, 0, 0, values⟩
    ∧ pyIntOfHundredths (0 - 0) = 0 ∧ pyIntOfHundredths (0 + 0) = 0
    ∧ calc_workload_score 0 0 0 = 0 := by
  have hiv : ¬interval = 0 := by
    intro h0
    rw [num_of_intervals, h0, Nat.div_zero] at h2
    omega
  have hstats := baselineStats_replicate_zero (num_of_intervals total interval - 1)
    (num_of_intervals total interval) (by omega) h2
  refine ⟨hstats, ?_, by decide, by decide, by decide⟩
  rw [scorePartition, if_neg hiv]
  dsimp only
  rw [if_neg (by omega), if_neg (by omega)]
  have hbase : (List.range (num_of_intervals total interval - 1)).map
      (fun i => countWindow [] end_date total interval i) =
      List.replicate (num_of_intervals total interval - 1) 0 := by
    refine List.eq_replicate_iff.2 ⟨by simp, ?_⟩
    intro b hb
    rcases List.mem_map.1 hb with ⟨i, _, rfl⟩
    exact countWindow_nil end_date total interval i
  rw [hbase, hstats, countWindow_nil]
  norm_num [pyIntOfHundredths, calc_workload_score]

/-- C8 witness: the all-zero partition property instantiated at the
default configuration (28-day period, 7-day windows). -/
theorem c8_all_zero_partition_witness :
    (2 ≤ num_of_intervals 28 7) ∧
    (baselineStats (List.replicate (num_of_intervals 28 7 - 1) 0)
        (num_of_intervals 28 7) = (0, 0, 0, 0)
      ∧ scorePartition [] 0 28 7 [5] = Except.ok ⟨0, 0, 0, 0, [5]⟩
      ∧ pyIntOfHundredths (0 - 0) = 0 ∧ pyIntOfHundredths (0 + 0) = 0
      ∧ calc_workload_score 0 0 0 = 0) :=
  ⟨by decide, c8_all_zero_partition 0 28 7 [5] (by decide)⟩
